import Mathlib

/-!
Shallow embedding of the `mailgun_v3` crate (src/lib.rs, src/email.rs,
src/templates.rs, src/validation.rs): the data model, the parameter-map
construction and the request-dispatch pipeline, together with theorems
settling the specification claims about them.

Rust `HashMap<String, String>` is modelled as an association list with
unique keys; `insert` replaces the value of an existing key and otherwise
appends, which matches `HashMap::insert` on the lists this crate builds
(they always start empty, so keys stay unique).
-/

/-- Model of `HashMap::insert`: replace the value at an existing key,
otherwise append the new binding. -/
def insertKV : List (String × String) → String → String → List (String × String)
  | [], k, v => [(k, v)]
  | p :: t, k, v => if p.1 = k then (k, v) :: t else p :: insertKV t k v

/-- Model of `HashMap::get`. -/
def lookupKV : List (String × String) → String → Option String
  | [], _ => none
  | p :: t, k => if p.1 = k then some p.2 else lookupKV t k

/-- The keys of a parameter map. -/
def keysOf (m : List (String × String)) : List String :=
  m.map Prod.fst

/-- Rust `EmailAddress` (src/lib.rs): an email address, with or without a
display name. -/
structure EmailAddress where
  name : Option String
  address : String
deriving DecidableEq

/-- Rust `EmailAddress::address` (src/lib.rs). -/
def EmailAddress.mk_address (address : String) : EmailAddress :=
  { name := none, address := address }

/-- Rust `EmailAddress::name_address` (src/lib.rs). -/
def EmailAddress.name_address (name address : String) : EmailAddress :=
  { name := some name, address := address }

/-- Rust `EmailAddress::to_string` (src/lib.rs): `format!("{} <{}>", name, address)`
when a display name is present, the bare address otherwise. -/
def EmailAddress.to_string (e : EmailAddress) : String :=
  match e.name with
  | some name => name ++ " <" ++ e.address ++ ">"
  | none => e.address

/-- Rust `chrono::DateTime<Utc>` abstracted by its RFC-2822 rendering, the only
use the crate makes of it (`instant.to_rfc2822()` is chrono library code,
an external collaborator per the spec's scope). -/
structure DateTime where
  rfc2822 : String
deriving DecidableEq

/-- Rust `DateTime::to_rfc2822` (chrono, external): returns the stored rendering. -/
def DateTime.to_rfc2822 (d : DateTime) : String :=
  d.rfc2822

/-- Rust `MessageBody` (src/email.rs). -/
inductive MessageBody where
  | Html (c : String)
  | Text (c : String)
  | HtmlAndText (html text : String)
deriving DecidableEq

/-- Rust `MessageBody::add_to` (src/email.rs). -/
def MessageBody.add_to (b : MessageBody) (params : List (String × String)) :
    List (String × String) :=
  match b with
  | .Html c => insertKV params "html" c
  | .Text c => insertKV params "text" c
  | .HtmlAndText html text => insertKV (insertKV params "html" html) "text" text

/-- Rust `SendOptions` (src/email.rs). -/
inductive SendOptions where
  | TestMode
  | DeliveryTime (instant : DateTime)
  | Header (header val : String)
  | Tag (tag : String)
deriving DecidableEq

/-- The `(key, value)` pair computed by the `match` inside
`SendOptions::add_to` (src/email.rs lines 86-94). -/
def SendOptions.kv : SendOptions → String × String
  | .TestMode => ("o:testmode", "yes")
  | .DeliveryTime instant => ("o:deliverytime", instant.to_rfc2822)
  | .Header header val => ("h:" ++ header, val)
  | .Tag tag => ("o:tag", tag)

/-- Rust `SendOptions::add_to` (src/email.rs): compute the pair, insert it. -/
def SendOptions.add_to (o : SendOptions) (params : List (String × String)) :
    List (String × String) :=
  insertKV params o.kv.1 o.kv.2

/-- Rust `Message` (src/email.rs). -/
structure Message where
  «to» : List EmailAddress
  cc : List EmailAddress
  bcc : List EmailAddress
  subject : String
  body : MessageBody
  options : List SendOptions

/-- Rust `Message::add_recipients` (src/email.rs): when the list is non-empty,
join the rendered addresses with `","` and insert under the field name. -/
def Message.add_recipients (field : String) (addresses : List EmailAddress)
    (params : List (String × String)) : List (String × String) :=
  if addresses.isEmpty then params
  else insertKV params field
    (String.intercalate "," (addresses.map EmailAddress.to_string))

/-- Rust `Message::to_params` (src/email.rs). -/
def Message.to_params (m : Message) : List (String × String) :=
  let params := Message.add_recipients "to" m.«to» []
  let params := Message.add_recipients "cc" m.cc params
  let params := Message.add_recipients "bcc" m.bcc params
  let params := insertKV params "subject" m.subject
  let params := m.body.add_to params
  m.options.foldl (fun ps o => o.add_to ps) params

/-- Rust `Credentials` (src/lib.rs). -/
structure Credentials where
  api_base : String
  api_key : String
  domain : String
deriving DecidableEq

/-- Rust `MAILGUN_DEFAULT_API` (src/lib.rs line 17). -/
def MAILGUN_DEFAULT_API : String := "https://api.mailgun.net/v3"

/-- Modelled from the spec: the crate-level constant `MAILGUN_API` imported
by src/email.rs and src/validation.rs is not declared in any file under
src/; the spec fixes the API root those modules address to the default
`https://api.mailgun.net/v3` (section 6, and src/lib.rs's
`MAILGUN_DEFAULT_API`). -/
def MAILGUN_API : String := MAILGUN_DEFAULT_API

/-- Rust `Credentials::with_base` (src/lib.rs): the four `assert!`s are modelled
as `none` (a panic aborts construction); on success the three strings are
stored unchanged.  `str::starts_with("http")` is the character-prefix test
(the needle is ASCII, so byte prefix and character prefix agree), and
`api_key.len()` in Rust is the UTF-8 byte length, hence
`String.utf8ByteSize`. -/
def Credentials.with_base (api_base api_key domain : String) : Option Credentials :=
  if List.isPrefixOf "http".data api_base.data then
    if 1 ≤ (api_base.data.filter (fun c => c == '.')).length then
      if 35 ≤ api_key.utf8ByteSize then
        if 1 ≤ (domain.data.filter (fun c => c == '.')).length then
          some { api_base := api_base, api_key := api_key, domain := domain }
        else none
      else none
    else none
  else none

/-- Rust `Credentials::new` (src/lib.rs). -/
def Credentials.mk_new (api_key domain : String) : Option Credentials :=
  Credentials.with_base MAILGUN_DEFAULT_API api_key domain

/-- Rust `MESSAGES_ENDPOINT` (src/email.rs). -/
def MESSAGES_ENDPOINT : String := "messages"

/-- Rust `TEMPLATES_ENDPOINT` (src/templates.rs). -/
def TEMPLATES_ENDPOINT : String := "templates"

/-- Rust `TEMPLATE_VERSIONS_ENDPOINT` (src/templates.rs). -/
def TEMPLATE_VERSIONS_ENDPOINT : String := "versions"

/-- The URL built by `send_with_client` (src/email.rs line 123):
`format!("{}/{}/{}", MAILGUN_API, creds.domain, MESSAGES_ENDPOINT)`.
Note the source uses the crate constant, not `creds.api_base`. -/
def send_url (creds : Credentials) : String :=
  MAILGUN_API ++ "/" ++ creds.domain ++ "/" ++ MESSAGES_ENDPOINT

/-- The URL built by `create_template_with_client` (src/templates.rs line
104): `format!("{}/{}/{}", creds.api_base, creds.domain, TEMPLATES_ENDPOINT)`. -/
def create_template_url (creds : Credentials) : String :=
  creds.api_base ++ "/" ++ creds.domain ++ "/" ++ TEMPLATES_ENDPOINT

/-- The URL built by `get_templates_with_client` (src/templates.rs lines
143-151). -/
def get_templates_url (creds : Credentials) (template_name : Option String)
    (do_fetch_versions : Bool) : String :=
  match template_name with
  | some name =>
    if do_fetch_versions then
      creds.api_base ++ "/" ++ creds.domain ++ "/" ++ TEMPLATES_ENDPOINT ++ "/"
        ++ name ++ "/" ++ TEMPLATE_VERSIONS_ENDPOINT
    else
      creds.api_base ++ "/" ++ creds.domain ++ "/" ++ TEMPLATES_ENDPOINT ++ "/" ++ name
  | none => creds.api_base ++ "/" ++ creds.domain ++ "/" ++ TEMPLATES_ENDPOINT

/-- HTTP Basic authentication credentials attached to a request. -/
structure BasicAuth where
  username : String
  password : String
deriving DecidableEq

/-- An outgoing request as assembled by the dispatch functions: target URL,
Basic-auth pair, form parameters. -/
structure HttpRequest where
  url : String
  auth : BasicAuth
  params : List (String × String)

/-- The request assembled by `send_with_client` / `send_with_request_builder`
(src/email.rs lines 122-137): URL from `send_url`, `basic_auth("api",
creds.api_key)`, form parameters `msg.to_params()` plus `"from"` mapped to
the rendered sender. -/
def send_request (creds : Credentials) (sender : EmailAddress) (msg : Message) :
    HttpRequest :=
  { url := send_url creds
  , auth := { username := "api", password := creds.api_key }
  , params := insertKV msg.to_params "from" sender.to_string }

/-- The outcome of `RequestBuilder::send()`: either a transport failure or
a response with a status code and a body. -/
inductive HttpOutcome where
  | transportFailure
  | response (status : Nat) (body : String)
deriving DecidableEq

/-- The `reqwest::Error` shapes the crate can surface: transport failure,
HTTP status error (from `error_for_status`), body-deserialization failure
(from `json()`). -/
inductive RequestError where
  | transport
  | status (code : Nat)
  | deserialization
deriving DecidableEq

/-- Rust `Response::error_for_status` (reqwest, external): fails exactly on
client-error (4xx) and server-error (5xx) statuses, carrying the status. -/
def error_for_status : Nat × String → Except RequestError (Nat × String)
  | (s, b) =>
    if 400 ≤ s ∧ s ≤ 599 then Except.error (RequestError.status s)
    else Except.ok (s, b)

/-- Rust `send()?` (reqwest, external): transport failure or the response. -/
def sendStep : HttpOutcome → Except RequestError (Nat × String)
  | .transportFailure => Except.error RequestError.transport
  | .response s b => Except.ok (s, b)

/-- Rust `res.json()?` (reqwest + serde, external): parse the body with the
operation's deserializer, failing with a deserialization error. -/
def jsonStep {α : Type} (parse : String → Option α) : Nat × String → Except RequestError α
  | (_, b) =>
    match parse b with
    | some v => Except.ok v
    | none => Except.error RequestError.deserialization

/-- The response-handling chain shared by every dispatch function
(`send()?.error_for_status()?` then `json()?`, e.g. src/email.rs lines
134-141), parametrised by the operation's body deserializer. -/
def dispatch_response {α : Type} (parse : String → Option α) (out : HttpOutcome) :
    Except RequestError α := do
  let r ← sendStep out
  let r2 ← error_for_status r
  jsonStep parse r2

/-- Rust `SendResponse` (src/email.rs). -/
structure SendResponse where
  message : String
  id : String
deriving DecidableEq

/-- Rust `VersionResponse` (src/templates.rs). -/
structure VersionResponse where
  created_at : String
  engine : String
  tag : String
  comment : String
  mjml : String
  template : Option String
  id : Option String
  active : Bool
deriving DecidableEq

/-- Rust `TemplateResponse` (src/templates.rs). -/
structure TemplateResponse where
  created_at : String
  created_by : String
  description : String
  name : String
  id : String
  version : Option VersionResponse
  versions : Option (List VersionResponse)
deriving DecidableEq

/-- Rust `GetTemplatesResponse` (src/templates.rs). -/
structure GetTemplatesResponse where
  items : List TemplateResponse
deriving DecidableEq

/-- Rust `GetSingleTemplateResponse` (src/templates.rs). -/
structure GetSingleTemplateResponse where
  template : TemplateResponse
deriving DecidableEq

/-- Rust `get_templates_with_request_builder` (src/templates.rs lines 156-178):
after the shared send/status steps, a body for a named template is parsed
as the single-template shape and wrapped in a one-element list; with no
name the body is parsed directly as the list shape. -/
def get_templates_with_request_builder
    (parseSingle : String → Option GetSingleTemplateResponse)
    (parseList : String → Option GetTemplatesResponse)
    (template_name : Option String) (out : HttpOutcome) :
    Except RequestError GetTemplatesResponse := do
  let r ← sendStep out
  let res ← error_for_status r
  if template_name.isSome then
    match parseSingle res.2 with
    | some parsed => Except.ok { items := [parsed.template] }
    | none => Except.error RequestError.deserialization
  else
    match parseList res.2 with
    | some parsed => Except.ok parsed
    | none => Except.error RequestError.deserialization

/-- Rust `get_templates_with_client` (src/templates.rs lines 137-154): build the
URL (the only place the version flag is used), then hand off to the
request-builder variant, which never sees the flag. -/
def get_templates_with_client
    (parseSingle : String → Option GetSingleTemplateResponse)
    (parseList : String → Option GetTemplatesResponse)
    (creds : Credentials) (template_name : Option String)
    (do_fetch_versions : Bool) (out : HttpOutcome) :
    String × Except RequestError GetTemplatesResponse :=
  ( get_templates_url creds template_name do_fetch_versions
  , get_templates_with_request_builder parseSingle parseList template_name out )

/-- Reference definition following the amended C6 contract's words: a
transport failure yields a transport error; a 4xx or 5xx status yields an
error carrying that status; any other response is decided by body
deserialization — the parsed value on success, a deserialization error
otherwise. -/
def dispatch_contract {α : Type} (parse : String → Option α) :
    HttpOutcome → Except RequestError α
  | .transportFailure => Except.error RequestError.transport
  | .response s b =>
    if 400 ≤ s ∧ s ≤ 599 then Except.error (RequestError.status s)
    else
      match parse b with
      | some v => Except.ok v
      | none => Except.error RequestError.deserialization

/-! ### Lemmas about the parameter-map model -/

theorem lookupKV_insertKV (m : List (String × String)) (k v q : String) :
    lookupKV (insertKV m k v) q = if q = k then some v else lookupKV m q := by
  induction m with
  | nil =>
    by_cases h : q = k
    · subst h; simp [insertKV, lookupKV]
    · simp [insertKV, lookupKV, h, Ne.symm h]
  | cons p t ih =>
    by_cases hp : p.1 = k
    · by_cases h : q = k
      · subst h; simp [insertKV, lookupKV, hp]
      · have hpq : ¬ p.1 = q := fun he => h (he ▸ hp)
        simp [insertKV, lookupKV, hp, h, Ne.symm h, hpq]
    · by_cases h : q = k
      · subst h
        have hpq : ¬ p.1 = q := fun he => hp he
        simp [insertKV, lookupKV, hp, hpq, ih]
      · by_cases hpq : p.1 = q
        · simp [insertKV, lookupKV, hp, hpq, h]
        · simp [insertKV, lookupKV, hp, hpq, h, ih]

theorem keysOf_nil : keysOf [] = [] := rfl

theorem keysOf_cons (p : String × String) (t : List (String × String)) :
    keysOf (p :: t) = p.1 :: keysOf t := rfl

theorem mem_keysOf_insertKV (m : List (String × String)) (k v : String) (x : String)
    (h : x ∈ keysOf (insertKV m k v)) : x = k ∨ x ∈ keysOf m := by
  induction m with
  | nil => simp [insertKV, keysOf_cons, keysOf_nil] at h; exact Or.inl h
  | cons p t ih =>
    by_cases hp : p.1 = k
    · simp only [insertKV, if_pos hp, keysOf_cons, List.mem_cons] at h
      rcases h with h | h
      · exact Or.inl h
      · exact Or.inr (by simp only [keysOf_cons, List.mem_cons]; exact Or.inr h)
    · simp only [insertKV, if_neg hp, keysOf_cons, List.mem_cons] at h
      rcases h with h | h
      · exact Or.inr (by simp only [keysOf_cons, List.mem_cons]; exact Or.inl h)
      · rcases ih h with h2 | h2
        · exact Or.inl h2
        · exact Or.inr (by simp only [keysOf_cons, List.mem_cons]; exact Or.inr h2)

theorem nodup_keysOf_insertKV (m : List (String × String)) (k v : String)
    (h : (keysOf m).Nodup) : (keysOf (insertKV m k v)).Nodup := by
  induction m with
  | nil => simp [insertKV, keysOf_cons, keysOf_nil]
  | cons p t ih =>
    rw [keysOf_cons, List.nodup_cons] at h
    by_cases hp : p.1 = k
    · simp only [insertKV, if_pos hp, keysOf_cons, List.nodup_cons]
      exact ⟨fun hmem => h.1 (hp ▸ hmem), h.2⟩
    · simp only [insertKV, if_neg hp, keysOf_cons, List.nodup_cons]
      refine ⟨?_, ih h.2⟩
      intro hmem
      rcases mem_keysOf_insertKV t k v p.1 hmem with h2 | h2
      · exact hp h2
      · exact h.1 h2

/-! ### Key-disjointness facts -/

theorem hkey_ne (n s : String) (h : s.data.take 2 ≠ ['h', ':']) : "h:" ++ n ≠ s := by
  intro he
  apply h
  rw [← he]
  rfl

theorem kv_fst_ne (o : SendOptions) (q : String)
    (h1 : q ≠ "o:testmode") (h2 : q ≠ "o:deliverytime") (h3 : q ≠ "o:tag")
    (h4 : q.data.take 2 ≠ ['h', ':']) : o.kv.1 ≠ q := by
  cases o with
  | TestMode => exact fun he => h1 he.symm
  | DeliveryTime instant => exact fun he => h2 he.symm
  | Header header val => exact hkey_ne header q h4
  | Tag tag => exact fun he => h3 he.symm

theorem kv_fst_ne_reserved (o : SendOptions) (q : String)
    (hq : q = "to" ∨ q = "cc" ∨ q = "bcc" ∨ q = "subject" ∨ q = "html" ∨
      q = "text" ∨ q = "from") : o.kv.1 ≠ q := by
  rcases hq with h | h | h | h | h | h | h <;> subst h <;>
    exact kv_fst_ne o _ (by decide) (by decide) (by decide) (by decide)

/-! ### Stage lemmas for `Message.to_params` -/

theorem lookupKV_add_recipients_ne (field : String) (addresses : List EmailAddress)
    (params : List (String × String)) (q : String) (h : q ≠ field) :
    lookupKV (Message.add_recipients field addresses params) q = lookupKV params q := by
  unfold Message.add_recipients
  split
  · rfl
  · rw [lookupKV_insertKV, if_neg h]

theorem lookupKV_add_recipients_self (field : String) (addresses : List EmailAddress)
    (params : List (String × String)) (h : addresses ≠ []) :
    lookupKV (Message.add_recipients field addresses params) field =
      some (String.intercalate "," (addresses.map EmailAddress.to_string)) := by
  unfold Message.add_recipients
  rw [if_neg (by simpa [List.isEmpty_iff] using h), lookupKV_insertKV, if_pos rfl]

theorem lookupKV_body_add_ne (b : MessageBody) (params : List (String × String))
    (q : String) (h1 : q ≠ "html") (h2 : q ≠ "text") :
    lookupKV (b.add_to params) q = lookupKV params q := by
  cases b <;> simp [MessageBody.add_to, lookupKV_insertKV, h1, h2]

theorem lookupKV_options_foldl_ne (opts : List SendOptions)
    (params : List (String × String)) (q : String)
    (h : ∀ o ∈ opts, o.kv.1 ≠ q) :
    lookupKV (opts.foldl (fun ps o => o.add_to ps) params) q = lookupKV params q := by
  induction opts generalizing params with
  | nil => rfl
  | cons o t ih =>
    rw [List.foldl_cons, ih _ (fun o2 ho2 => h o2 (List.mem_cons_of_mem _ ho2))]
    unfold SendOptions.add_to
    rw [lookupKV_insertKV, if_neg (Ne.symm (h o (List.mem_cons_self o t)))]

theorem lookupKV_to_params_not_written (msg : Message) (q : String)
    (h1 : q ≠ "to") (h2 : q ≠ "cc") (h3 : q ≠ "bcc") (h4 : q ≠ "subject")
    (h5 : q ≠ "html") (h6 : q ≠ "text")
    (h7 : ∀ o ∈ msg.options, o.kv.1 ≠ q) :
    lookupKV msg.to_params q = none := by
  simp only [Message.to_params]
  rw [lookupKV_options_foldl_ne _ _ _ h7,
      lookupKV_body_add_ne _ _ _ h5 h6,
      lookupKV_insertKV, if_neg h4,
      lookupKV_add_recipients_ne _ _ _ _ h3,
      lookupKV_add_recipients_ne _ _ _ _ h2,
      lookupKV_add_recipients_ne _ _ _ _ h1]
  rfl

theorem lookupKV_options_foldl_last (opts : List SendOptions)
    (params : List (String × String)) (q : String) (o : SendOptions)
    (h : (opts.filter (fun o2 => o2.kv.1 == q)).getLast? = some o) :
    lookupKV (opts.foldl (fun ps o2 => o2.add_to ps) params) q = some o.kv.2 := by
  induction opts generalizing params with
  | nil => simp at h
  | cons p t ih =>
    by_cases hp : p.kv.1 = q
    · rw [List.filter_cons_of_pos (by simpa using hp)] at h
      rcases hfil : t.filter (fun o2 => o2.kv.1 == q) with _ | ⟨a, l⟩
      · rw [hfil] at h
        simp at h
        subst h
        rw [List.foldl_cons]
        rw [lookupKV_options_foldl_ne t _ q ?noneleft]
        case noneleft =>
          intro o2 ho2 he
          have hmem : o2 ∈ t.filter (fun o2 => o2.kv.1 == q) :=
            List.mem_filter.2 ⟨ho2, by simpa using he⟩
          rw [hfil] at hmem
          simp at hmem
        unfold SendOptions.add_to
        rw [lookupKV_insertKV, if_pos hp.symm]
      · rw [hfil, List.getLast?_cons_cons] at h
        rw [List.foldl_cons]
        exact ih _ (by rw [hfil]; exact h)
    · rw [List.filter_cons_of_neg (by simpa using hp)] at h
      rw [List.foldl_cons]
      exact ih _ h

theorem keysOf_to_params_nodup (msg : Message) : (keysOf msg.to_params).Nodup := by
  have hrec : ∀ (f : String) (addrs : List EmailAddress) params,
      (keysOf params).Nodup → (keysOf (Message.add_recipients f addrs params)).Nodup := by
    intro f addrs params h
    unfold Message.add_recipients
    split
    · exact h
    · exact nodup_keysOf_insertKV _ _ _ h
  have hbody : ∀ (b : MessageBody) params,
      (keysOf params).Nodup → (keysOf (b.add_to params)).Nodup := by
    intro b params h
    cases b with
    | Html c => exact nodup_keysOf_insertKV _ _ _ h
    | Text c => exact nodup_keysOf_insertKV _ _ _ h
    | HtmlAndText html text =>
      exact nodup_keysOf_insertKV _ _ _ (nodup_keysOf_insertKV _ _ _ h)
  have hfold : ∀ (opts : List SendOptions) params, (keysOf params).Nodup →
      (keysOf (opts.foldl (fun ps o => o.add_to ps) params)).Nodup := by
    intro opts
    induction opts with
    | nil => intro params h; exact h
    | cons o t ih => intro params h; exact ih _ (nodup_keysOf_insertKV _ _ _ h)
  simp only [Message.to_params]
  exact hfold _ _ (hbody _ _ (nodup_keysOf_insertKV _ _ _
    (hrec _ _ _ (hrec _ _ _ (hrec _ _ _ (by simp [keysOf_nil]))))))

/-! ### Claim theorems -/

/-- Claim C8: rendering an address with no display name yields exactly the
address string; with a display name `n` it yields exactly
`n ++ " <" ++ a ++ ">"`; no escaping, validation or normalization touches
either string. -/
theorem email_address_rendering (a : String) :
    (EmailAddress.mk_address a).to_string = a ∧
    ∀ n, (EmailAddress.name_address n a).to_string = n ++ " <" ++ a ++ ">" :=
  ⟨rfl, fun _ => rfl⟩

/-- Claim C7: with a template name and the version flag the listing URL is
`{api_base}/{domain}/templates/{name}/versions`; with a name and no flag it
is `{api_base}/{domain}/templates/{name}`; with no name it is
`{api_base}/{domain}/templates`. -/
theorem get_templates_url_routes (creds : Credentials) (name : String) (flag : Bool) :
    get_templates_url creds (some name) true =
      creds.api_base ++ "/" ++ creds.domain ++ "/templates/" ++ name ++ "/versions" ∧
    get_templates_url creds (some name) false =
      creds.api_base ++ "/" ++ creds.domain ++ "/templates/" ++ name ∧
    get_templates_url creds none flag =
      creds.api_base ++ "/" ++ creds.domain ++ "/templates" := by
  refine ⟨?_, ?_, ?_⟩
  · rw [show ("/templates/" : String) = "/" ++ "templates" ++ "/" from rfl,
        show ("/versions" : String) = "/" ++ "versions" from rfl]
    simp [get_templates_url, TEMPLATES_ENDPOINT, TEMPLATE_VERSIONS_ENDPOINT,
      String.append_assoc]
  · rw [show ("/templates/" : String) = "/" ++ "templates" ++ "/" from rfl]
    simp [get_templates_url, TEMPLATES_ENDPOINT, String.append_assoc]
  · rw [show ("/templates" : String) = "/" ++ "templates" from rfl]
    simp [get_templates_url, TEMPLATES_ENDPOINT, String.append_assoc]

/-- Claim C10: the form parameters of a send call are exactly the message's
parameter mapping plus one `"from"` entry holding the rendered sender; the
message mapping never contains a `"from"` key, so nothing is overwritten. -/
theorem send_request_params_spec (creds : Credentials) (sender : EmailAddress)
    (msg : Message) (q : String) :
    lookupKV msg.to_params "from" = none ∧
    lookupKV (send_request creds sender msg).params q =
      (if q = "from" then some sender.to_string else lookupKV msg.to_params q) := by
  have hfrom : lookupKV msg.to_params "from" = none :=
    lookupKV_to_params_not_written msg "from" (by decide) (by decide) (by decide)
      (by decide) (by decide) (by decide)
      (fun o _ => kv_fst_ne_reserved o _ (by decide))
  exact ⟨hfrom, by simp only [send_request]; rw [lookupKV_insertKV]⟩

/-- Claim C2: every send option contributes exactly the one key-value pair
computed in `SendOptions::add_to` — `o:testmode ↦ "yes"`, `o:deliverytime`
↦ the RFC-2822 rendering, `h:<name> ↦` the header value, `o:tag ↦` the tag
— the final mapping has unique keys, and when several options produce the
same key the value of the last such option in the list is the one present. -/
theorem sendOptions_param_mapping (msg : Message) (q : String) (o : SendOptions) :
    SendOptions.kv SendOptions.TestMode = ("o:testmode", "yes") ∧
    (∀ t : DateTime,
      SendOptions.kv (SendOptions.DeliveryTime t) = ("o:deliverytime", t.to_rfc2822)) ∧
    (∀ n v : String, SendOptions.kv (SendOptions.Header n v) = ("h:" ++ n, v)) ∧
    (∀ s : String, SendOptions.kv (SendOptions.Tag s) = ("o:tag", s)) ∧
    (keysOf msg.to_params).Nodup ∧
    ((msg.options.filter (fun o2 => o2.kv.1 == q)).getLast? = some o →
      lookupKV msg.to_params q = some o.kv.2) := by
  refine ⟨rfl, fun _ => rfl, fun _ _ => rfl, fun _ => rfl, keysOf_to_params_nodup msg, ?_⟩
  intro h
  simp only [Message.to_params]
  exact lookupKV_options_foldl_last _ _ _ _ h

/-- Witness for C2: with options `[Tag "a", Tag "b"]` the later tag wins. -/
theorem sendOptions_param_mapping_witness :
    lookupKV (Message.to_params
      { «to» := [], cc := [], bcc := [], subject := "",
        body := MessageBody.Text "",
        options := [SendOptions.Tag "a", SendOptions.Tag "b"] }) "o:tag" = some "b" :=
  (sendOptions_param_mapping
    { «to» := [], cc := [], bcc := [], subject := "",
      body := MessageBody.Text "",
      options := [SendOptions.Tag "a", SendOptions.Tag "b"] }
    "o:tag" (SendOptions.Tag "b")).2.2.2.2.2 (by decide)

/-- Claim C3: the mapping always contains `subject` mapped to the message's
subject (even when empty), and exactly the body keys of the active variant:
`Html` yields only `html`, `Text` only `text`, `HtmlAndText` both. -/
theorem message_subject_body_params (msg : Message) :
    lookupKV msg.to_params "subject" = some msg.subject ∧
    (∀ c, msg.body = MessageBody.Html c →
      lookupKV msg.to_params "html" = some c ∧ lookupKV msg.to_params "text" = none) ∧
    (∀ c, msg.body = MessageBody.Text c →
      lookupKV msg.to_params "text" = some c ∧ lookupKV msg.to_params "html" = none) ∧
    (∀ ch ct, msg.body = MessageBody.HtmlAndText ch ct →
      lookupKV msg.to_params "html" = some ch ∧ lookupKV msg.to_params "text" = some ct) := by
  have hpre : ∀ q : String, q ≠ "subject" → q ≠ "to" → q ≠ "cc" → q ≠ "bcc" →
      lookupKV (insertKV (Message.add_recipients "bcc" msg.bcc
        (Message.add_recipients "cc" msg.cc
          (Message.add_recipients "to" msg.«to» []))) "subject" msg.subject) q = none := by
    intro q hs ht hc hb
    rw [lookupKV_insertKV, if_neg hs,
        lookupKV_add_recipients_ne _ _ _ _ hb,
        lookupKV_add_recipients_ne _ _ _ _ hc,
        lookupKV_add_recipients_ne _ _ _ _ ht]
    rfl
  refine ⟨?_, ?_, ?_, ?_⟩
  · simp only [Message.to_params]
    rw [lookupKV_options_foldl_ne _ _ _ (fun o _ => kv_fst_ne_reserved o _ (by decide)),
        lookupKV_body_add_ne _ _ _ (by decide) (by decide),
        lookupKV_insertKV, if_pos rfl]
  · intro c h
    constructor
    · simp only [Message.to_params]
      rw [lookupKV_options_foldl_ne _ _ _ (fun o _ => kv_fst_ne_reserved o _ (by decide)), h]
      simp only [MessageBody.add_to]
      rw [lookupKV_insertKV, if_pos rfl]
    · simp only [Message.to_params]
      rw [lookupKV_options_foldl_ne _ _ _ (fun o _ => kv_fst_ne_reserved o _ (by decide)), h]
      simp only [MessageBody.add_to]
      rw [lookupKV_insertKV, if_neg (by decide)]
      exact hpre "text" (by decide) (by decide) (by decide) (by decide)
  · intro c h
    constructor
    · simp only [Message.to_params]
      rw [lookupKV_options_foldl_ne _ _ _ (fun o _ => kv_fst_ne_reserved o _ (by decide)), h]
      simp only [MessageBody.add_to]
      rw [lookupKV_insertKV, if_pos rfl]
    · simp only [Message.to_params]
      rw [lookupKV_options_foldl_ne _ _ _ (fun o _ => kv_fst_ne_reserved o _ (by decide)), h]
      simp only [MessageBody.add_to]
      rw [lookupKV_insertKV, if_neg (by decide)]
      exact hpre "html" (by decide) (by decide) (by decide) (by decide)
  · intro ch ct h
    constructor
    · simp only [Message.to_params]
      rw [lookupKV_options_foldl_ne _ _ _ (fun o _ => kv_fst_ne_reserved o _ (by decide)), h]
      simp only [MessageBody.add_to]
      rw [lookupKV_insertKV, if_neg (by decide),
          lookupKV_insertKV, if_pos rfl]
    · simp only [Message.to_params]
      rw [lookupKV_options_foldl_ne _ _ _ (fun o _ => kv_fst_ne_reserved o _ (by decide)), h]
      simp only [MessageBody.add_to]
      rw [lookupKV_insertKV, if_pos rfl]

/-- Witness for C3: an `Html` message with an empty subject stores the
empty subject and only the `html` body key. -/
theorem message_subject_body_params_witness :
    lookupKV (Message.to_params
      { «to» := [], cc := [], bcc := [], subject := "",
        body := MessageBody.Html "<b>hi</b>", options := [] }) "subject" = some "" ∧
    lookupKV (Message.to_params
      { «to» := [], cc := [], bcc := [], subject := "",
        body := MessageBody.Html "<b>hi</b>", options := [] }) "html" = some "<b>hi</b>" ∧
    lookupKV (Message.to_params
      { «to» := [], cc := [], bcc := [], subject := "",
        body := MessageBody.Html "<b>hi</b>", options := [] }) "text" = none := by
  have h := message_subject_body_params
    { «to» := [], cc := [], bcc := [], subject := "",
      body := MessageBody.Html "<b>hi</b>", options := [] }
  exact ⟨h.1, (h.2.1 "<b>hi</b>" rfl).1, (h.2.1 "<b>hi</b>" rfl).2⟩

theorem add_recipients_nil (f : String) (params : List (String × String)) :
    Message.add_recipients f [] params = params := rfl

/-- Claim C4: each non-empty recipient list among to, cc, bcc contributes
one entry under its field name whose value is the rendered addresses joined
by "," in list order; an empty list leaves its key absent entirely. -/
theorem message_recipient_params (msg : Message) :
    (msg.«to» ≠ [] → lookupKV msg.to_params "to" =
      some (String.intercalate "," (msg.«to».map EmailAddress.to_string))) ∧
    (msg.«to» = [] → lookupKV msg.to_params "to" = none) ∧
    (msg.cc ≠ [] → lookupKV msg.to_params "cc" =
      some (String.intercalate "," (msg.cc.map EmailAddress.to_string))) ∧
    (msg.cc = [] → lookupKV msg.to_params "cc" = none) ∧
    (msg.bcc ≠ [] → lookupKV msg.to_params "bcc" =
      some (String.intercalate "," (msg.bcc.map EmailAddress.to_string))) ∧
    (msg.bcc = [] → lookupKV msg.to_params "bcc" = none) := by
  have hcommon : ∀ q : String, q ≠ "subject" → q ≠ "html" → q ≠ "text" →
      (∀ o ∈ msg.options, o.kv.1 ≠ q) →
      lookupKV msg.to_params q =
        lookupKV (Message.add_recipients "bcc" msg.bcc
          (Message.add_recipients "cc" msg.cc
            (Message.add_recipients "to" msg.«to» []))) q := by
    intro q hs hh ht hopts
    simp only [Message.to_params]
    rw [lookupKV_options_foldl_ne _ _ _ hopts,
        lookupKV_body_add_ne _ _ _ hh ht,
        lookupKV_insertKV, if_neg hs]
  refine ⟨?_, ?_, ?_, ?_, ?_, ?_⟩
  · intro h
    rw [hcommon "to" (by decide) (by decide) (by decide)
          (fun o _ => kv_fst_ne_reserved o _ (by decide)),
        lookupKV_add_recipients_ne _ _ _ _ (by decide),
        lookupKV_add_recipients_ne _ _ _ _ (by decide),
        lookupKV_add_recipients_self _ _ _ h]
  · intro h
    rw [hcommon "to" (by decide) (by decide) (by decide)
          (fun o _ => kv_fst_ne_reserved o _ (by decide)),
        lookupKV_add_recipients_ne _ _ _ _ (by decide),
        lookupKV_add_recipients_ne _ _ _ _ (by decide),
        h]
    simp [Message.add_recipients, lookupKV]
  · intro h
    rw [hcommon "cc" (by decide) (by decide) (by decide)
          (fun o _ => kv_fst_ne_reserved o _ (by decide)),
        lookupKV_add_recipients_ne _ _ _ _ (by decide),
        lookupKV_add_recipients_self _ _ _ h]
  · intro h
    rw [hcommon "cc" (by decide) (by decide) (by decide)
          (fun o _ => kv_fst_ne_reserved o _ (by decide)),
        lookupKV_add_recipients_ne _ _ _ _ (by decide),
        h, add_recipients_nil,
        lookupKV_add_recipients_ne _ _ _ _ (by decide)]
    rfl
  · intro h
    rw [hcommon "bcc" (by decide) (by decide) (by decide)
          (fun o _ => kv_fst_ne_reserved o _ (by decide)),
        lookupKV_add_recipients_self _ _ _ h]
  · intro h
    rw [hcommon "bcc" (by decide) (by decide) (by decide)
          (fun o _ => kv_fst_ne_reserved o _ (by decide)),
        h, add_recipients_nil,
        lookupKV_add_recipients_ne _ _ _ _ (by decide),
        lookupKV_add_recipients_ne _ _ _ _ (by decide)]
    rfl

/-- Witness for C4, the spec's own example: one `to` recipient, two `cc`
recipients (one with a display name), empty `bcc`. -/
theorem message_recipient_params_witness :
    lookupKV (Message.to_params
      { «to» := [EmailAddress.mk_address "foo@bar.com"],
        cc := [EmailAddress.name_address "Tim" "woo@woah.com", EmailAddress.mk_address "z@c.c"],
        bcc := [], subject := "", body := MessageBody.Text "", options := [] }) "to"
      = some "foo@bar.com" ∧
    lookupKV (Message.to_params
      { «to» := [EmailAddress.mk_address "foo@bar.com"],
        cc := [EmailAddress.name_address "Tim" "woo@woah.com", EmailAddress.mk_address "z@c.c"],
        bcc := [], subject := "", body := MessageBody.Text "", options := [] }) "cc"
      = some "Tim <woo@woah.com>,z@c.c" ∧
    lookupKV (Message.to_params
      { «to» := [EmailAddress.mk_address "foo@bar.com"],
        cc := [EmailAddress.name_address "Tim" "woo@woah.com", EmailAddress.mk_address "z@c.c"],
        bcc := [], subject := "", body := MessageBody.Text "", options := [] }) "bcc"
      = none := by
  have h := message_recipient_params
    { «to» := [EmailAddress.mk_address "foo@bar.com"],
      cc := [EmailAddress.name_address "Tim" "woo@woah.com", EmailAddress.mk_address "z@c.c"],
      bcc := [], subject := "", body := MessageBody.Text "", options := [] }
  refine ⟨?_, ?_, h.2.2.2.2.2 rfl⟩
  · have h1 := h.1 (by decide)
    rw [h1]
    rfl
  · have h2 := h.2.2.1 (by decide)
    rw [h2]
    rfl

theorem one_le_filter_dot (l : List Char) :
    (1 ≤ (l.filter (fun c => c == '.')).length) ↔ '.' ∈ l := by
  constructor
  · intro h
    rcases hne : l.filter (fun c => c == '.') with _ | ⟨a, t⟩
    · rw [hne] at h; simp at h
    · have ha : a ∈ l.filter (fun c => c == '.') := by
        rw [hne]; exact List.mem_cons_self a t
      have hmem := List.mem_filter.1 ha
      have heq : a = '.' := by simpa using hmem.2
      exact heq ▸ hmem.1
  · intro h
    have hmem : '.' ∈ l.filter (fun c => c == '.') :=
      List.mem_filter.2 ⟨h, by simp⟩
    exact List.length_pos.2 (List.ne_nil_of_mem hmem)

/-- Claim C5: Credentials construction fails exactly when the api_base does
not start with `"http"` (the http(s)-scheme check, which both `http://` and
`https://` pass), or the api_base contains no dot, or the api_key is
shorter than 35 (UTF-8 length, Rust `str::len`), or the domain contains no
dot; when none of these holds it succeeds and stores the three strings
unchanged. -/
theorem credentials_with_base_spec (b k d : String) :
    (Credentials.with_base b k d = none ↔
      (List.isPrefixOf "http".data b.data = false ∨ '.' ∉ b.data ∨
        k.utf8ByteSize < 35 ∨ '.' ∉ d.data)) ∧
    (∀ c, Credentials.with_base b k d = some c →
      c.api_base = b ∧ c.api_key = k ∧ c.domain = d) := by
  constructor
  · constructor
    · intro h
      by_contra hall
      push_neg at hall
      obtain ⟨hA, hB, hC, hD⟩ := hall
      have hA2 : List.isPrefixOf "http".data b.data = true := by
        cases hb : List.isPrefixOf "http".data b.data with
        | false => exact absurd hb hA
        | true => rfl
      simp only [Credentials.with_base] at h
      rw [if_pos hA2, if_pos ((one_le_filter_dot _).2 hB),
          if_pos (by omega), if_pos ((one_le_filter_dot _).2 hD)] at h
      exact Option.noConfusion h
    · intro h
      simp only [Credentials.with_base]
      rcases h with h | h | h | h
      · rw [if_neg (by simp [h])]
      · split
        · rw [if_neg (fun hc => h ((one_le_filter_dot _).1 hc))]
        · rfl
      · split
        · split
          · rw [if_neg (by omega)]
          · rfl
        · rfl
      · split
        · split
          · split
            · rw [if_neg (fun hc => h ((one_le_filter_dot _).1 hc))]
            · rfl
          · rfl
        · rfl
  · intro c h
    simp only [Credentials.with_base] at h
    repeat' split at h
    all_goals first
      | (cases h; exact ⟨rfl, rfl, rfl⟩)
      | exact Option.noConfusion h

/-- Witness for C5: a well-formed base, a 36-character key and a dotted
domain construct successfully and store the inputs unchanged. -/
theorem credentials_with_base_spec_witness :
    Credentials.api_base
        { api_base := "https://api.mailgun.net/v3",
          api_key := "0123456789abcdef0123456789abcdef-123",
          domain := "example.com" } = "https://api.mailgun.net/v3" ∧
    Credentials.api_key
        { api_base := "https://api.mailgun.net/v3",
          api_key := "0123456789abcdef0123456789abcdef-123",
          domain := "example.com" } = "0123456789abcdef0123456789abcdef-123" ∧
    Credentials.domain
        { api_base := "https://api.mailgun.net/v3",
          api_key := "0123456789abcdef0123456789abcdef-123",
          domain := "example.com" } = "example.com" :=
  (credentials_with_base_spec "https://api.mailgun.net/v3"
      "0123456789abcdef0123456789abcdef-123" "example.com").2
    { api_base := "https://api.mailgun.net/v3",
      api_key := "0123456789abcdef0123456789abcdef-123",
      domain := "example.com" } (by decide)

/-- Claim C6 counterexample: a 304 response — non-2xx — is not mapped to an
HTTP-status error carrying 304: `error_for_status` rejects only 4xx/5xx, so
the pipeline proceeds to body deserialization (here the body parses, so the
call even succeeds). -/
theorem dispatch_response_counterexample :
    dispatch_response
        (fun _ => some ({ message := "Queued. Thank you.", id := "id1" } : SendResponse))
        (HttpOutcome.response 304 "resp") =
      Except.ok { message := "Queued. Thank you.", id := "id1" } ∧
    dispatch_response
        (fun _ => some ({ message := "Queued. Thank you.", id := "id1" } : SendResponse))
        (HttpOutcome.response 304 "resp") ≠
      Except.error (RequestError.status 304) :=
  ⟨rfl, fun h => Except.noConfusion h⟩

/-- Claim C6 (amended): the dispatch pipeline equals the contract — a
transport failure propagates as a transport error, a 4xx/5xx status as an
error carrying that status, and otherwise body deserialization decides the
result; in particular a 2xx response whose body deserializes yields the
parsed value.  No failure is handled locally or retried. -/
theorem dispatch_response_spec {α : Type} (parse : String → Option α) (out : HttpOutcome) :
    dispatch_response parse out = dispatch_contract parse out ∧
    (∀ s b v, 200 ≤ s → s < 300 → parse b = some v →
      dispatch_response parse (HttpOutcome.response s b) = Except.ok v) := by
  constructor
  · cases out with
    | transportFailure => rfl
    | response s b =>
      show Except.bind
          (if 400 ≤ s ∧ s ≤ 599 then Except.error (RequestError.status s)
            else Except.ok (s, b)) (jsonStep parse) =
        if 400 ≤ s ∧ s ≤ 599 then Except.error (RequestError.status s)
        else
          match parse b with
          | some v => Except.ok v
          | none => Except.error RequestError.deserialization
      by_cases h : 400 ≤ s ∧ s ≤ 599
      · rw [if_pos h]
        rw [if_pos h]
        rfl
      · rw [if_neg h]
        rw [if_neg h]
        rfl
  · intro s b v h1 h2 h3
    show Except.bind
        (if 400 ≤ s ∧ s ≤ 599 then Except.error (RequestError.status s)
          else Except.ok (s, b)) (jsonStep parse) = Except.ok v
    rw [if_neg (by omega)]
    show (match parse b with
      | some v => Except.ok v
      | none => Except.error RequestError.deserialization) = Except.ok v
    rw [h3]

/-- Witness for C6 (amended): a 200 response with a parsable body yields
the parsed value. -/
theorem dispatch_response_spec_witness :
    dispatch_response (fun _ => some ({ message := "m", id := "i" } : SendResponse))
        (HttpOutcome.response 200 "resp") = Except.ok { message := "m", id := "i" } :=
  (dispatch_response_spec (fun _ => some ({ message := "m", id := "i" } : SendResponse))
      (HttpOutcome.response 200 "resp")).2 200 "resp" _ (by decide) (by decide) rfl

/-- Claim C9: whenever a template name is supplied — the version flag never
reaches the response handler, so this covers the `/versions` route too —
the body is parsed with the single-template shape and the returned items
list is exactly that one template; with no name the body is parsed directly
with the list shape. -/
theorem get_templates_parse_shape
    (pS : String → Option GetSingleTemplateResponse)
    (pL : String → Option GetTemplatesResponse)
    (name : String) (creds : Credentials) (tn : Option String)
    (flag1 flag2 : Bool) (out : HttpOutcome)
    (s : Nat) (b : String) (r : GetTemplatesResponse) :
    (get_templates_with_request_builder pS pL (some name) (HttpOutcome.response s b) =
        Except.ok r →
      ∃ tr, pS b = some tr ∧ r.items = [tr.template]) ∧
    (get_templates_with_request_builder pS pL none (HttpOutcome.response s b) =
        Except.ok r →
      pL b = some r) ∧
    (get_templates_with_client pS pL creds tn flag1 out).2 =
      (get_templates_with_client pS pL creds tn flag2 out).2 := by
  refine ⟨?_, ?_, rfl⟩
  · intro h
    have key : get_templates_with_request_builder pS pL (some name)
        (HttpOutcome.response s b) =
        Except.bind
          (if 400 ≤ s ∧ s ≤ 599 then Except.error (RequestError.status s)
            else Except.ok (s, b))
          (fun res =>
            if (some name).isSome then
              match pS res.2 with
              | some parsed => Except.ok { items := [parsed.template] }
              | none => Except.error RequestError.deserialization
            else
              match pL res.2 with
              | some parsed => Except.ok parsed
              | none => Except.error RequestError.deserialization) := rfl
    rw [key] at h
    by_cases hs : 400 ≤ s ∧ s ≤ 599
    · rw [if_pos hs] at h
      exact Except.noConfusion h
    · rw [if_neg hs] at h
      rcases hps : pS b with _ | tr
      · have h2 : (Except.error RequestError.deserialization :
            Except RequestError GetTemplatesResponse) = Except.ok r := by
          rw [← h]
          show (Except.error RequestError.deserialization :
            Except RequestError GetTemplatesResponse) =
              (match pS b with
                | some parsed => Except.ok { items := [parsed.template] }
                | none => Except.error RequestError.deserialization)
          rw [hps]
        exact Except.noConfusion h2
      · have h2 : (Except.ok ({ items := [tr.template] } : GetTemplatesResponse) :
            Except RequestError GetTemplatesResponse) = Except.ok r := by
          rw [← h]
          show (Except.ok ({ items := [tr.template] } : GetTemplatesResponse) :
            Except RequestError GetTemplatesResponse) =
              (match pS b with
                | some parsed => Except.ok { items := [parsed.template] }
                | none => Except.error RequestError.deserialization)
          rw [hps]
        refine ⟨tr, rfl, ?_⟩
        have h3 := Except.ok.inj h2
        rw [← h3]
  · intro h
    have key : get_templates_with_request_builder pS pL none
        (HttpOutcome.response s b) =
        Except.bind
          (if 400 ≤ s ∧ s ≤ 599 then Except.error (RequestError.status s)
            else Except.ok (s, b))
          (fun res =>
            if (none : Option String).isSome then
              match pS res.2 with
              | some parsed => Except.ok { items := [parsed.template] }
              | none => Except.error RequestError.deserialization
            else
              match pL res.2 with
              | some parsed => Except.ok parsed
              | none => Except.error RequestError.deserialization) := rfl
    rw [key] at h
    by_cases hs : 400 ≤ s ∧ s ≤ 599
    · rw [if_pos hs] at h
      exact Except.noConfusion h
    · rw [if_neg hs] at h
      rcases hpl : pL b with _ | lst
      · have h2 : (Except.error RequestError.deserialization :
            Except RequestError GetTemplatesResponse) = Except.ok r := by
          rw [← h]
          show (Except.error RequestError.deserialization :
            Except RequestError GetTemplatesResponse) =
              (match pL b with
                | some parsed => Except.ok parsed
                | none => Except.error RequestError.deserialization)
          rw [hpl]
        exact Except.noConfusion h2
      · have h2 : (Except.ok lst : Except RequestError GetTemplatesResponse) =
            Except.ok r := by
          rw [← h]
          show (Except.ok lst : Except RequestError GetTemplatesResponse) =
              (match pL b with
                | some parsed => Except.ok parsed
                | none => Except.error RequestError.deserialization)
          rw [hpl]
        exact congrArg some (Except.ok.inj h2)

/-- Witness for C9: a named-template call whose body parses as the
single-template shape returns exactly that one template as the items list. -/
theorem get_templates_parse_shape_witness :
    ∃ tr, (fun _ : String => some ({ template := { created_at := "ca",
                                                   created_by := "cb",
                                                   description := "d",
                                                   name := "n",
                                                   id := "i",
                                                   version := none,
                                                   versions := none } } :
      GetSingleTemplateResponse)) "" = some tr ∧
      ({ items := [{ created_at := "ca",
                     created_by := "cb",
                     description := "d",
                     name := "n",
                     id := "i",
                     version := none,
                     versions := none }] } :
        GetTemplatesResponse).items = [tr.template] :=
  (get_templates_parse_shape
    (fun _ => some { template := { created_at := "ca",
                                   created_by := "cb",
                                   description := "d",
                                   name := "n",
                                   id := "i",
                                   version := none,
                                   versions := none } })
    (fun _ => none) "n" { api_base := "a.b", api_key := "k", domain := "c.d" } none
    true true HttpOutcome.transportFailure 200 ""
    { items := [{ created_at := "ca",
                  created_by := "cb",
                  description := "d",
                  name := "n",
                  id := "i",
                  version := none,
                  versions := none }] }).1 rfl

/-- Claim C1, evaluated at the EU-region credentials of
examples/send_email_eu_region.rs: the email-send URL is built from the
crate constant `MAILGUN_API` and ignores the api_base stored in the
Credentials, while template creation honours it; Basic auth does carry the
fixed username `"api"` and the api_key. -/
theorem send_url_ignores_api_base :
    send_url { api_base := "https://api.eu.mailgun.net/v3",
               api_key := "0123456789abcdef0123456789abcdef-123",
               domain := "example.org" } =
      "https://api.mailgun.net/v3/example.org/messages" ∧
    send_url { api_base := "https://api.eu.mailgun.net/v3",
               api_key := "0123456789abcdef0123456789abcdef-123",
               domain := "example.org" } ≠
      "https://api.eu.mailgun.net/v3/example.org/messages" ∧
    create_template_url { api_base := "https://api.eu.mailgun.net/v3",
                          api_key := "0123456789abcdef0123456789abcdef-123",
                          domain := "example.org" } =
      "https://api.eu.mailgun.net/v3/example.org/templates" ∧
    (send_request { api_base := "https://api.eu.mailgun.net/v3",
                    api_key := "0123456789abcdef0123456789abcdef-123",
                    domain := "example.org" }
        (EmailAddress.mk_address "sender@example.org")
        { «to» := [], cc := [], bcc := [], subject := "",
          body := MessageBody.Text "", options := [] }).auth =
      { username := "api", password := "0123456789abcdef0123456789abcdef-123" } := by
  refine ⟨rfl, ?_, rfl, rfl⟩
  decide
